import Mathlib

/-!
Verification of the Magnum Vulkan wrapper layer (`src/Magnum/Vk`): the
`DeviceCreateInfo` / `Device` extension bookkeeping from `Device.cpp` and the
lazily cached `DeviceProperties` plus the device/queue pickers from
`DeviceProperties.cpp`, shallowly embedded in Lean.

Modelling conventions:
* C++ `Containers::StringView` values are modelled by their character data,
  `List Char` (`Str` below).  The C++ comparison is bytewise lexicographic and
  all strings involved (Vulkan extension names, command-line values) are
  ASCII, where the `List Char` lexicographic order coincides with it.
* Iterators into arrays are modelled by indices; dereferencing the end
  iterator (an out-of-bounds read) is modelled by an `Option` result `none`.
* Native Vulkan entry points (`vkGetPhysicalDeviceProperties` etc.) are
  deterministic oracles: a `PhysicalDevice` record holds what the driver
  would report, and each wrapper call additionally returns the number of
  native queries it performed.
-/

namespace Magnum
namespace Vk

/-- A C++ string value (`Containers::StringView` / `Containers::String` data). -/
abbrev Str : Type := List Char

/-- Models `std::lower_bound` over an array of strings compared with
`operator<`: the index of the first element that is not less than `x`
(the array length when every element is less, i.e. the end iterator). -/
def lowerBoundIdx : List Str → Str → Nat
  | [], _ => 0
  | a :: as, x => if a < x then lowerBoundIdx as x + 1 else 0

/-- Models `std::binary_search(first, last, x)`: `first != last` for the
lower-bound position, then `!(x < *it)`.  (`Device.cpp:135` and `:170` call
this on the sorted disabled-extensions array.) -/
def binarySearch (l : List Str) (x : Str) : Bool :=
  match l[lowerBoundIdx l x]? with
  | some a => !(decide (x < a))
  | none => false

/-- Whitespace characters of Corrade's default delimiter set
`" \t\f\v\r\n"` used by `Utility::String::splitWithoutEmptyParts`. -/
def isWsChar (c : Char) : Bool :=
  c = ' ' || c = '\t' || c = '\x0c' || c = '\x0b' || c = '\r' || c = '\n'

/-- Models `Utility::String::splitWithoutEmptyParts(string)` (Corrade):
split on whitespace, dropping empty parts. -/
def splitWithoutEmptyParts (s : Str) : List Str :=
  (List.splitOnP isWsChar s).filter (fun part => !part.isEmpty)

/-- Models `std::sort` on an array of string values (`Device.cpp:87`).
`std::sort` sorts in place by `operator<`; on *values* any sorting algorithm
produces the same nondecreasing sequence, here insertion sort. -/
def sortStringArray (l : List Str) : List Str :=
  List.insertionSort (· ≤ ·) l

/-- Queue priorities are `Float` values that `Device.cpp` only stores and
copies, never computes with; they are modelled by an opaque scalar type. -/
abbrev Priority : Type := Nat

/-- Models `VkDeviceQueueCreateInfo` (the fields `addQueues` fills in at
`Device.cpp:193`); `pQueuePriorities` points into the internal priority
storage and is modelled by the values it designates. -/
structure VkDeviceQueueCreateInfo where
  queueFamilyIndex : Nat
  queueCount : Nat
  pQueuePriorities : List Priority
  deriving DecidableEq

/-- Models the `VkDeviceCreateInfo` structure `_info` (the fields this code
writes); `ppEnabledExtensionNames` and `pQueueCreateInfos` are pointers to
internal arrays, modelled by the arrays they point at. -/
structure VkDeviceCreateInfo where
  enabledExtensionCount : Nat
  ppEnabledExtensionNames : List Str
  queueCreateInfoCount : Nat
  pQueueCreateInfos : List VkDeviceQueueCreateInfo
  deriving DecidableEq

/-- Modelled from the spec: `Magnum/Vk/Version.h` is not among the sources.
`Version` wraps the packed Vulkan version number (an `UnsignedInt`), with a
distinguished `Version::None` sentinel; `DeviceVkTest::construct` checks that
a real device version is *not* `>= Version::None`, so the sentinel is the
largest value, `0xffffffff`.  Versions are modelled as `Nat`. -/
def noneVersion : Nat := 4294967295

/-- Models `DeviceCreateInfo::State` (`Device.cpp:52`).  The 32-slot
`queuePriorities` static array together with `nextQueuePriority` is modelled
by the list of values written so far (`nextQueuePriority` is its length).
`ownedStrings` only keeps copies alive and has no observable value. -/
structure DeviceCreateInfoState where
  extensions : List Str
  disabledExtensions : List Str
  queues : List VkDeviceQueueCreateInfo
  queuePriorities : List Priority
  version : Nat
  deriving DecidableEq

/-- Models `DeviceCreateInfo`: the raw `_info` structure plus the internal
`_state`. -/
structure DeviceCreateInfo where
  info : VkDeviceCreateInfo
  state : DeviceCreateInfoState
  deriving DecidableEq

/-- The per-extension loop of `DeviceCreateInfo::addEnabledExtensions`
(`Device.cpp:133`): skip an extension iff `std::binary_search` finds it in
the disabled-extensions array, otherwise append it.  (The owned-copy logic at
`Device.cpp:141` only affects string lifetime, not the appended value.) -/
def addEnabledExtensionsLoop (disabled : List Str) (acc : List Str) : List Str → List Str
  | [] => acc
  | e :: rest =>
    if binarySearch disabled e then addEnabledExtensionsLoop disabled acc rest
    else addEnabledExtensionsLoop disabled (acc ++ [e]) rest

/-- Models `DeviceCreateInfo::addEnabledExtensions` (`Device.cpp:125`):
early-out on an empty list, append the non-blacklisted names, then set
`enabledExtensionCount` to the array size and re-point
`ppEnabledExtensionNames` at the array. -/
def DeviceCreateInfo.addEnabledExtensions (d : DeviceCreateInfo) (exts : List Str) : DeviceCreateInfo :=
  if exts.isEmpty then d
  else
    let newExts := addEnabledExtensionsLoop d.state.disabledExtensions d.state.extensions exts
    { d with
      state := { d.state with extensions := newExts }
      info := { d.info with
                enabledExtensionCount := newExts.length
                ppEnabledExtensionNames := newExts } }

/-- The `--magnum-*` command-line options that the `DeviceCreateInfo`
constructor reads via `Utility::Arguments` (`Device.cpp:67`), already parsed
to their string values. -/
structure DeviceArguments where
  disableExtensionList : Str
  enableExtensionList : Str
  deriving DecidableEq

/-- Models the `DeviceCreateInfo(DeviceProperties&, ...)` constructor
(`Device.cpp:66`): records `min(instance version, device apiVersion)`, sorts
the non-empty `--magnum-disable-extensions` list, and runs
`addEnabledExtensions` on the split `--magnum-enable-extensions` value.
(The implicit-extension block at `Device.cpp:103` adds no extensions in this
snapshot.) -/
def DeviceCreateInfo.construct (instanceVersion apiVersion : Nat)
    (args : DeviceArguments) : DeviceCreateInfo :=
  let disabled : List Str :=
    if args.disableExtensionList.isEmpty then []
    else sortStringArray (splitWithoutEmptyParts args.disableExtensionList)
  let d : DeviceCreateInfo :=
    { info := { enabledExtensionCount := 0, ppEnabledExtensionNames := [],
                queueCreateInfoCount := 0, pQueueCreateInfos := [] }
      state := { extensions := [], disabledExtensions := disabled, queues := [],
                 queuePriorities := [],
                 version := min instanceVersion apiVersion } }
  d.addEnabledExtensions (splitWithoutEmptyParts args.enableExtensionList)

/-- Outcome of a `DeviceCreateInfo::addQueues` call.  `assertedOut` is a
fired `CORRADE_ASSERT` in its graceful configuration (the one
`DeviceVkTest::createInfoNoPriorities` exercises): the message is printed and
the given object is returned unchanged.  `internalAbort` is a fired
`CORRADE_INTERNAL_ASSERT`, which terminates the process. -/
inductive AddQueuesResult where
  | assertedOut (message : Str) (d : DeviceCreateInfo)
  | internalAbort
  | ok (d : DeviceCreateInfo)
  deriving DecidableEq

/-- Models `DeviceCreateInfo::addQueues(const VkDeviceQueueCreateInfo&)`
(`Device.cpp:214`): append the info to the internal queue array, re-point
`pQueueCreateInfos` at it and set `queueCreateInfoCount` to its size. -/
def DeviceCreateInfo.addQueuesInfo (d : DeviceCreateInfo)
    (info : VkDeviceQueueCreateInfo) : DeviceCreateInfo :=
  let qs := d.state.queues ++ [info]
  { d with
    state := { d.state with queues := qs }
    info := { d.info with pQueueCreateInfos := qs, queueCreateInfoCount := qs.length } }

/-- The `CORRADE_ASSERT` message at `Device.cpp:187`. -/
def addQueuesMessage : Str :=
  "Vk::DeviceCreateInfo::addQueues(): at least one queue priority has to be specified".data

/-- Models `DeviceCreateInfo::addQueues(family, priorities)`
(`Device.cpp:186`): assert non-empty priorities (graceful: return `*this`
unchanged), build the queue info pointing at the next free slice of the
32-slot priority storage, internal-assert that the copy fits
(`Device.cpp:203`), copy the priorities, and append via the info overload. -/
def DeviceCreateInfo.addQueues (d : DeviceCreateInfo) (family : Nat)
    (priorities : List Priority) : AddQueuesResult :=
  if priorities.isEmpty then .assertedOut addQueuesMessage d
  else
    let info : VkDeviceQueueCreateInfo :=
      { queueFamilyIndex := family, queueCount := priorities.length,
        pQueuePriorities := priorities }
    if d.state.queuePriorities.length + priorities.length ≤ 32 then
      .ok (DeviceCreateInfo.addQueuesInfo
        { d with state := { d.state with
                            queuePriorities := d.state.queuePriorities ++ priorities } }
        info)
    else .internalAbort

/-- A known device extension as used by `Device::initializeExtensions`: its
name string and its index into the extension status bitset.  (The `Extension`
class itself lives in `Magnum/Vk/Extensions.h`, not among the sources; only
the two accessors `string()` and `index()` the code calls are modelled.) -/
structure Extension where
  name : Str
  index : Nat
  deriving DecidableEq

/-- `Implementation::ExtensionCount` from `Device.h:47`. -/
def extensionCount : Nat := 72

/-- Models `Math::BoolVector<Implementation::ExtensionCount>`
(`_extensionStatus`), zero-initialized, as a list of 72 booleans. -/
abbrev ExtensionStatus : Type := List Bool

/-- The zero-initialized extension status: no extension marked enabled
(`Device.h` documents that with no enabled extensions the device behaves as
if none were enabled). -/
def ExtensionStatus.allDisabled : ExtensionStatus := List.replicate extensionCount false

/-- Models `std::lower_bound` over a known-extensions table with the
comparator `a.string() < b` from `Device.cpp:301`. -/
def lowerBoundExtIdx : List Extension → Str → Nat
  | [], _ => 0
  | e :: es, x => if e.name < x then lowerBoundExtIdx es x + 1 else 0

/-- One enabled name against one known-extensions table, the inner loop body
of `Device::initializeExtensions` (`Device.cpp:295`): `lower_bound`, then the
*unguarded* dereference `found->string()` at `Device.cpp:304`.  When
`lower_bound` returned the end iterator that dereference reads past the end
of the table; the out-of-bounds read is modelled by `none`. -/
def searchTable (status : ExtensionStatus) (tbl : List Extension) (x : Str) :
    Option ExtensionStatus :=
  match tbl[lowerBoundExtIdx tbl x]? with
  | none => none
  | some e => if e.name = x then some (status.set e.index true) else some status

/-- One enabled name against all three known-extensions tables
(`Extension::extensions(Version::None/Vk11/Vk12)`, whose contents live in
`Magnum/Vk/Extensions.h` outside the sources and are left abstract). -/
def initializeExtensionsName (tables : List (List Extension))
    (status : ExtensionStatus) (x : Str) : Option ExtensionStatus :=
  tables.foldlM (fun st tbl => searchTable st tbl x) status

/-- Models `Device::initializeExtensions(enabledExtensions)`
(`Device.cpp:292`) starting from the zero-initialized status bitset; `none`
means some search performed an out-of-bounds table read. -/
def initializeExtensionsAll (tables : List (List Extension)) (names : List Str) :
    Option ExtensionStatus :=
  names.foldlM (initializeExtensionsName tables) ExtensionStatus.allDisabled

/-- Opaque stand-in for the `FlextVkDevice` table of device function
pointers (its members are never inspected by this code, only copied). -/
structure FlextVkDevice where
  table : Nat
  deriving DecidableEq

/-- `HandleFlag::DestroyOnDestruction` bit of `HandleFlags`. -/
def destroyOnDestruction : Nat := 1

/-- Models `Device`: handle, handle flags, version, extension status bitset
and the per-device function pointer table. -/
structure Device where
  handle : Nat
  flags : Nat
  version : Nat
  extensionStatus : ExtensionStatus
  functionPointers : FlextVkDevice
  deriving DecidableEq

/-- Models `Device::isExtensionEnabled(extension)` (`Device.cpp:325`):
`_extensionStatus[extension.index()]`. -/
def Device.isExtensionEnabled (d : Device) (e : Extension) : Bool :=
  d.extensionStatus.getD e.index false

/-- Models `Device::wrap(instance, handle, version, enabledExtensions, flags)`
(`Device.cpp:229`): start from `NoCreate`, set handle and flags, run
`initializeExtensions` on the given names, then `initialize` records the
version and loads the function pointers (`flextVkInitDevice`, modelled by the
`loaded` table the instance loader would produce).  `none` propagates an
out-of-bounds table read in `initializeExtensions`. -/
def Device.wrap (tables : List (List Extension)) (loaded : FlextVkDevice)
    (handle : Nat) (version : Nat) (enabled : List Str) (flags : Nat) :
    Option Device :=
  (initializeExtensionsAll tables enabled).map fun st =>
    { handle := handle, flags := flags, version := version,
      extensionStatus := st, functionPointers := loaded }

/-- Models the `Device(Instance&, const DeviceCreateInfo&)` constructor
(`Device.cpp:244`): assert at least one queue (`none` when the count is
zero), pick the recorded version unless it is the `Version::None` sentinel
(then the physical device's `apiVersion`), create the device, run
`initializeExtensions` over the first `enabledExtensionCount` entries of
`ppEnabledExtensionNames`, and `initialize`. -/
def Device.create (tables : List (List Extension)) (loaded : FlextVkDevice)
    (handle : Nat) (physicalDeviceApiVersion : Nat) (info : DeviceCreateInfo) :
    Option Device :=
  if info.info.queueCreateInfoCount = 0 then none
  else
    let version :=
      if info.state.version ≠ noneVersion then info.state.version
      else physicalDeviceApiVersion
    (initializeExtensionsAll tables
        (info.info.ppEnabledExtensionNames.take info.info.enabledExtensionCount)).map
      fun st =>
        { handle := handle, flags := destroyOnDestruction, version := version,
          extensionStatus := st, functionPointers := loaded }

/-- The global `flextVkDevice` function pointer table
(`flextVkGlobal.h`), the only global state this code writes. -/
structure GlobalFunctionPointers where
  flextVkDevice : FlextVkDevice
  deriving DecidableEq

/-- Models `Device::populateGlobalFunctionPointers()` (`Device.cpp:329`):
`flextVkDevice = _functionPointers;`.  The state it acts on is the pair of
the global table and the device itself; the returned pair is the state after
the call. -/
def Device.populateGlobalFunctionPointers (d : Device)
    (_g : GlobalFunctionPointers) : GlobalFunctionPointers × Device :=
  ({ flextVkDevice := d.functionPointers }, d)

/-- Physical device type, the `DeviceType` enum of `DeviceProperties.h:53`
(wrapping `VkPhysicalDeviceType`). -/
inductive DeviceType where
  | other
  | integratedGpu
  | discreteGpu
  | virtualGpu
  | cpu
  deriving DecidableEq

/-- The `VkPhysicalDeviceProperties` fields this code reads
(`apiVersion`, `driverVersion`, `deviceType`, `deviceName`). -/
structure VkPhysicalDeviceProperties where
  apiVersion : Nat
  driverVersion : Nat
  deviceType : DeviceType
  deviceName : Str
  deriving DecidableEq

/-- Models `VkPhysicalDeviceProperties2`: the application-written `sType`
field (zero until set, `DeviceProperties.cpp:67` uses it as the
fetched-already sentinel) plus the driver-filled properties. -/
structure VkPhysicalDeviceProperties2 where
  sType : Nat
  properties : VkPhysicalDeviceProperties
  deriving DecidableEq

/-- `VK_STRUCTURE_TYPE_PHYSICAL_DEVICE_PROPERTIES_2` (a fixed nonzero
constant; only being nonzero matters to the sentinel test). -/
def vkStructureTypeProperties2 : Nat := 1000059001

/-- The `VkQueueFamilyProperties` fields this code reads. -/
structure VkQueueFamilyProperties where
  queueFlags : Nat
  queueCount : Nat
  deriving DecidableEq

/-- Deterministic oracle for the native per-device queries: what the driver
reports for one `VkPhysicalDevice`. -/
structure PhysicalDevice where
  properties : VkPhysicalDeviceProperties
  queueFamilies : List VkQueueFamilyProperties
  deriving DecidableEq

/-- Models `DeviceProperties::State` (`DeviceProperties.cpp:44`): the
lazily-filled property caches, zero-initialized.  The lazily emplaced
`_state` pointer is folded into this: emplacing produces exactly this
zero-initialized state. -/
structure DevicePropertiesState where
  properties : VkPhysicalDeviceProperties2
  queueFamilyProperties : List VkQueueFamilyProperties
  deriving DecidableEq

/-- The state of a freshly constructed `DeviceProperties` (no caches
populated). -/
def DevicePropertiesState.initial : DevicePropertiesState :=
  { properties := { sType := 0,
                    properties := { apiVersion := 0, driverVersion := 0,
                                    deviceType := .other, deviceName := [] } }
    queueFamilyProperties := [] }

/-- Models `DeviceProperties::properties()` (`DeviceProperties.cpp:63`):
if the cached structure's `sType` is still zero, set it and perform the
native query, else return the cache.  Result: the returned structure, the
state after the call, and the number of native queries performed. -/
def DeviceProperties.propertiesCall (dev : PhysicalDevice)
    (s : DevicePropertiesState) :
    VkPhysicalDeviceProperties2 × DevicePropertiesState × Nat :=
  if s.properties.sType = 0 then
    let fetched : VkPhysicalDeviceProperties2 :=
      { sType := vkStructureTypeProperties2, properties := dev.properties }
    (fetched, { s with properties := fetched }, 1)
  else (s.properties, s, 0)

/-- Models `DeviceProperties::apiVersion()` (`DeviceProperties.h:171`):
`Version(properties().properties.apiVersion)`. -/
def DeviceProperties.apiVersionCall (dev : PhysicalDevice)
    (s : DevicePropertiesState) : Nat × DevicePropertiesState × Nat :=
  let r := DeviceProperties.propertiesCall dev s
  (r.1.properties.apiVersion, r.2.1, r.2.2)

/-- Models `DeviceProperties::driverVersion()` (`DeviceProperties.h:181`). -/
def DeviceProperties.driverVersionCall (dev : PhysicalDevice)
    (s : DevicePropertiesState) : Nat × DevicePropertiesState × Nat :=
  let r := DeviceProperties.propertiesCall dev s
  (r.1.properties.driverVersion, r.2.1, r.2.2)

/-- Models `DeviceProperties::type()` (`DeviceProperties.h:191`). -/
def DeviceProperties.typeCall (dev : PhysicalDevice)
    (s : DevicePropertiesState) : DeviceType × DevicePropertiesState × Nat :=
  let r := DeviceProperties.propertiesCall dev s
  (r.1.properties.deviceType, r.2.1, r.2.2)

/-- Models `DeviceProperties::name()` (`DeviceProperties.cpp:59`). -/
def DeviceProperties.nameCall (dev : PhysicalDevice)
    (s : DevicePropertiesState) : Str × DevicePropertiesState × Nat :=
  let r := DeviceProperties.propertiesCall dev s
  (r.1.properties.deviceName, r.2.1, r.2.2)

/-- Models `DeviceProperties::queueFamilyProperties()`
(`DeviceProperties.cpp:99`): if the cached array is empty, query the count,
allocate, query the data (two native queries), else return the cache. -/
def DeviceProperties.queueFamilyPropertiesCall (dev : PhysicalDevice)
    (s : DevicePropertiesState) :
    List VkQueueFamilyProperties × DevicePropertiesState × Nat :=
  if s.queueFamilyProperties.isEmpty then
    (dev.queueFamilies, { s with queueFamilyProperties := dev.queueFamilies }, 2)
  else (s.queueFamilyProperties, s, 0)

/-- Models the `EnumSet` containment test
`QueueFlag(properties[i].queueFlags) >= flags` from
`DeviceProperties.cpp:167`: the family's flag set contains every requested
bit. -/
def queueFlagsContain (familyFlags requested : Nat) : Bool :=
  familyFlags &&& requested = requested

/-- The indexed loop of `DeviceProperties::tryPickQueueFamily`
(`DeviceProperties.cpp:166`). -/
def tryPickQueueFamilyLoop (requested : Nat) :
    List VkQueueFamilyProperties → Nat → Option Nat
  | [], _ => none
  | p :: ps, i =>
    if queueFlagsContain p.queueFlags requested then some i
    else tryPickQueueFamilyLoop requested ps (i + 1)

/-- Models `DeviceProperties::tryPickQueueFamily(flags)`
(`DeviceProperties.cpp:164`) applied to the (already fetched) queue family
array: the first family index containing all requested flags, `none` (plus
an error message) when there is none. -/
def DeviceProperties.tryPickQueueFamily (families : List VkQueueFamilyProperties)
    (requested : Nat) : Option Nat :=
  tryPickQueueFamilyLoop requested families 0

/-- Models `DeviceProperties::pickQueueFamily(flags)`
(`DeviceProperties.cpp:158`): return the picked index, or `std::exit(1)`
(modelled by `Except.error ()`) when `tryPickQueueFamily` failed. -/
def DeviceProperties.pickQueueFamily (families : List VkQueueFamilyProperties)
    (requested : Nat) : Except Unit Nat :=
  match DeviceProperties.tryPickQueueFamily families requested with
  | some i => .ok i
  | none => .error ()

/-- Decimal digit test `c >= '0' && c <= '9'` from
`DeviceProperties.cpp:210`. -/
def isDecimalDigit (c : Char) : Bool := '0' ≤ c && c ≤ '9'

/-- Whether the option value's first character is a decimal digit. -/
def firstIsDecimalDigit : Str → Bool
  | [] => false
  | c :: _ => isDecimalDigit c

/-- Models Corrade's `args.value<UnsignedInt>("device")` (external library):
the numeric value of the leading run of decimal digits. -/
def parseUnsignedValueAux (acc : Nat) : Str → Nat
  | [] => acc
  | c :: rest =>
    if isDecimalDigit c then parseUnsignedValueAux (acc * 10 + (c.toNat - 48)) rest
    else acc

/-- The parsed `--magnum-device` index. -/
def parseUnsignedValue (s : Str) : Nat := parseUnsignedValueAux 0 s

/-- The device-type keyword dispatch of `tryPickDevice`
(`DeviceProperties.cpp:220`). -/
def parseDeviceTypeArg (s : Str) : Option DeviceType :=
  if s = "integrated".data then some .integratedGpu
  else if s = "discrete".data then some .discreteGpu
  else if s = "virtual".data then some .virtualGpu
  else if s = "cpu".data then some .cpu
  else none

/-- Models `tryPickDevice(instance)` (`DeviceProperties.cpp:194`) applied to
the parsed `--magnum-device` value and the enumerated device list: empty
value picks the front device (`none` when there are no devices); a value
starting with a decimal digit picks by index (`none` out of bounds); a
device-type keyword picks the first device of that type (`none` when absent);
anything else is an unknown type (`none`). -/
def tryPickDevice (deviceArg : Str) (devices : List PhysicalDevice) :
    Option PhysicalDevice :=
  if deviceArg.isEmpty then
    if devices.isEmpty then none else devices.head?
  else if firstIsDecimalDigit deviceArg then
    if devices.length ≤ parseUnsignedValue deviceArg then none
    else devices[parseUnsignedValue deviceArg]?
  else
    match parseDeviceTypeArg deviceArg with
    | none => none
    | some t => devices.find? (fun d => d.properties.deviceType == t)

/-- Models `pickDevice(instance)` (`DeviceProperties.cpp:241`): the picked
device, or `std::exit(1)` (modelled by `Except.error ()`). -/
def pickDevice (deviceArg : Str) (devices : List PhysicalDevice) :
    Except Unit PhysicalDevice :=
  match tryPickDevice deviceArg devices with
  | some d => .ok d
  | none => .error ()

/-- What `DeviceCreateInfo::addQueues` leaves of the disabled-extensions
list, per outcome: unchanged in the graceful-assert and success cases (an
aborted process has no further state to observe). -/
def AddQueuesResult.disabledUnchangedFrom (r : AddQueuesResult) (old : List Str) : Prop :=
  match r with
  | .assertedOut _ d => d.state.disabledExtensions = old
  | .internalAbort => True
  | .ok d => d.state.disabledExtensions = old

/-- A sample integrated-GPU physical device used in concrete witnesses. -/
def sampleIntegrated : PhysicalDevice :=
  { properties := { apiVersion := 4194304, driverVersion := 1,
                    deviceType := .integratedGpu, deviceName := "one".data }
    queueFamilies := [{ queueFlags := 3, queueCount := 1 }] }

/-- A sample CPU physical device used in concrete witnesses. -/
def sampleCpu : PhysicalDevice :=
  { properties := { apiVersion := 4198400, driverVersion := 2,
                    deviceType := .cpu, deviceName := "two".data }
    queueFamilies := [{ queueFlags := 4, queueCount := 2 }] }

/- Helper lemmas -/

theorem binarySearch_true_iff {l : List Str} (hs : List.Sorted (· ≤ ·) l) (x : Str) :
    binarySearch l x = true ↔ x ∈ l := by
  induction l with
  | nil => simp [binarySearch, lowerBoundIdx]
  | cons a as ih =>
    rw [List.sorted_cons] at hs
    obtain ⟨ha, hs⟩ := hs
    by_cases h : a < x
    · have heq : binarySearch (a :: as) x = binarySearch as x := by
        simp [binarySearch, lowerBoundIdx, h]
      rw [heq, ih hs]
      constructor
      · exact fun hm => List.mem_cons_of_mem _ hm
      · intro hm
        rcases List.mem_cons.mp hm with rfl | hm
        · exact absurd h (lt_irrefl x)
        · exact hm
    · have hle : x ≤ a := not_lt.mp h
      have heq : binarySearch (a :: as) x = !(decide (x < a)) := by
        simp [binarySearch, lowerBoundIdx, h]
      rw [heq]
      constructor
      · intro ht
        have hxa : ¬x < a := by simpa using ht
        have : x = a := le_antisymm hle (not_lt.mp hxa)
        simp [this]
      · intro hm
        rcases List.mem_cons.mp hm with rfl | hm
        · simp
        · have hax : a ≤ x := ha x hm
          simpa using not_lt.mpr hax

theorem addEnabledExtensionsLoop_eq (disabled : List Str) (acc : List Str)
    (exts : List Str) :
    addEnabledExtensionsLoop disabled acc exts
      = acc ++ exts.filter (fun e => !binarySearch disabled e) := by
  induction exts generalizing acc with
  | nil => simp [addEnabledExtensionsLoop]
  | cons e rest ih =>
    by_cases h : binarySearch disabled e
    · simp [addEnabledExtensionsLoop, h, ih]
    · simp [addEnabledExtensionsLoop, h, ih]

theorem filter_binarySearch_eq {disabled : List Str}
    (hs : List.Sorted (· ≤ ·) disabled) (exts : List Str) :
    exts.filter (fun e => !binarySearch disabled e)
      = exts.filter (fun e => decide (e ∉ disabled)) := by
  refine List.filter_congr fun e _ => ?_
  by_cases hb : binarySearch disabled e = true
  · have := (binarySearch_true_iff hs e).mp hb
    simp [hb, this]
  · have : e ∉ disabled := fun hm => hb ((binarySearch_true_iff hs e).mpr hm)
    simp [Bool.not_eq_true] at hb
    simp [hb, this]

theorem addEnabledExtensions_disabled (d : DeviceCreateInfo) (exts : List Str) :
    (d.addEnabledExtensions exts).state.disabledExtensions
      = d.state.disabledExtensions := by
  unfold DeviceCreateInfo.addEnabledExtensions
  split <;> rfl

theorem addEnabledExtensions_version (d : DeviceCreateInfo) (exts : List Str) :
    (d.addEnabledExtensions exts).state.version = d.state.version := by
  unfold DeviceCreateInfo.addEnabledExtensions
  split <;> rfl

/-- A `DeviceCreateInfo` built by the constructor satisfies the invariants
the `addEnabledExtensions` correctness statement assumes: sorted blacklist,
`enabledExtensionCount` equal to the enabled-extensions array length and
`ppEnabledExtensionNames` pointing at that array. -/
theorem construct_wellFormed (iv av : Nat) (args : DeviceArguments) :
    List.Sorted (· ≤ ·)
        (DeviceCreateInfo.construct iv av args).state.disabledExtensions ∧
    (DeviceCreateInfo.construct iv av args).info.enabledExtensionCount
      = (DeviceCreateInfo.construct iv av args).state.extensions.length ∧
    (DeviceCreateInfo.construct iv av args).info.ppEnabledExtensionNames
      = (DeviceCreateInfo.construct iv av args).state.extensions := by
  refine ⟨?_, ?_, ?_⟩
  · unfold DeviceCreateInfo.construct
    rw [addEnabledExtensions_disabled]
    split
    · simp
    · exact List.sorted_insertionSort (· ≤ ·) _
  · unfold DeviceCreateInfo.construct DeviceCreateInfo.addEnabledExtensions
    split <;> split <;> rfl
  · unfold DeviceCreateInfo.construct DeviceCreateInfo.addEnabledExtensions
    split <;> split <;> rfl

/-- C1: For every `DeviceCreateInfo` (whose disabled-extensions blacklist is
sorted, as the constructor's `std::sort` guarantees, and whose
`enabledExtensionCount`/`ppEnabledExtensionNames` describe the current
enabled-extensions array) and every `addEnabledExtensions` call, a name from
the list is appended exactly when it is not a member of the blacklist, the
non-blacklisted names are appended in their given order after all previously
added ones, and afterwards `enabledExtensionCount` is the array's length and
`ppEnabledExtensionNames` points at the array. -/
theorem addEnabledExtensions_correct (d : DeviceCreateInfo) (exts : List Str)
    (hsorted : List.Sorted (· ≤ ·) d.state.disabledExtensions)
    (hcount : d.info.enabledExtensionCount = d.state.extensions.length)
    (hptr : d.info.ppEnabledExtensionNames = d.state.extensions) :
    (d.addEnabledExtensions exts).state.extensions
        = d.state.extensions
            ++ exts.filter (fun e => decide (e ∉ d.state.disabledExtensions)) ∧
    (d.addEnabledExtensions exts).info.enabledExtensionCount
        = (d.addEnabledExtensions exts).state.extensions.length ∧
    (d.addEnabledExtensions exts).info.ppEnabledExtensionNames
        = (d.addEnabledExtensions exts).state.extensions := by
  unfold DeviceCreateInfo.addEnabledExtensions
  by_cases he : exts.isEmpty
  · have : exts = [] := List.isEmpty_iff.mp he
    subst this
    simp [hcount, hptr]
  · simp only [he, Bool.false_eq_true, if_false]
    rw [addEnabledExtensionsLoop_eq, filter_binarySearch_eq hsorted]
    exact ⟨by trivial, by trivial, by trivial⟩

/-- Witness for C1 at a concrete input: blacklist `["bb"]` (sorted), enabled
array `["aa"]` already recorded in the raw structure, adding
`["aa", "bb", "cc"]` appends `"aa"` and `"cc"` but not the blacklisted
`"bb"`. -/
theorem addEnabledExtensions_correct_witness :
    List.Sorted (· ≤ ·)
      (DeviceCreateInfo.mk ⟨1, ["aa".data], 0, []⟩
        ⟨["aa".data], ["bb".data], [], [], 5⟩).state.disabledExtensions ∧
    ((DeviceCreateInfo.mk ⟨1, ["aa".data], 0, []⟩
        ⟨["aa".data], ["bb".data], [], [], 5⟩).addEnabledExtensions
          ["aa".data, "bb".data, "cc".data]).state.extensions
      = ["aa".data]
          ++ (["aa".data, "bb".data, "cc".data].filter
                (fun e => decide (e ∉ [("bb".data : Str)]))) := by
  refine ⟨by decide, ?_⟩
  exact (addEnabledExtensions_correct
    (DeviceCreateInfo.mk ⟨1, ["aa".data], 0, []⟩
      ⟨["aa".data], ["bb".data], [], [], 5⟩)
    ["aa".data, "bb".data, "cc".data] (by decide) (by decide) (by decide)).1

/-- C3: After construction with a non-empty `--magnum-disable-extensions`
value the stored disabled-extensions list is sorted ascending, and neither
`addEnabledExtensions` nor `addQueues` (on any `DeviceCreateInfo`, hence
at any later point of the object's lifetime) modifies that list, so the
sortedness the `binary_search` membership test relies on persists. -/
theorem disabledExtensions_sorted_immutable (iv av : Nat) (args : DeviceArguments)
    (hne : ¬args.disableExtensionList.isEmpty = true) :
    List.Sorted (· ≤ ·)
        (DeviceCreateInfo.construct iv av args).state.disabledExtensions ∧
    (∀ (d : DeviceCreateInfo) (exts : List Str),
        (d.addEnabledExtensions exts).state.disabledExtensions
          = d.state.disabledExtensions) ∧
    (∀ (d : DeviceCreateInfo) (family : Nat) (ps : List Priority),
        (d.addQueues family ps).disabledUnchangedFrom
          d.state.disabledExtensions) := by
  refine ⟨?_, addEnabledExtensions_disabled, ?_⟩
  · unfold DeviceCreateInfo.construct
    rw [addEnabledExtensions_disabled]
    simp only [hne, if_false]
    exact List.sorted_insertionSort (· ≤ ·) _
  · intro d family ps
    unfold DeviceCreateInfo.addQueues
    split
    · exact rfl
    · split
      · exact rfl
      · exact trivial

/-- Witness for C3 at a concrete input: constructing with
`--magnum-disable-extensions "bb aa"` yields the sorted list
`["aa", "bb"]`, and concrete `addEnabledExtensions`/`addQueues` calls leave
the disabled list untouched. -/
theorem disabledExtensions_sorted_immutable_witness :
    ¬("bb aa".data : Str).isEmpty = true ∧
    List.Sorted (· ≤ ·)
      (DeviceCreateInfo.construct 5 7 ⟨"bb aa".data, []⟩).state.disabledExtensions ∧
    ((DeviceCreateInfo.construct 5 7 ⟨"bb aa".data, []⟩).addEnabledExtensions
        ["cc".data]).state.disabledExtensions
      = (DeviceCreateInfo.construct 5 7 ⟨"bb aa".data, []⟩).state.disabledExtensions ∧
    ((DeviceCreateInfo.construct 5 7 ⟨"bb aa".data, []⟩).addQueues 0
        [1]).disabledUnchangedFrom
      (DeviceCreateInfo.construct 5 7 ⟨"bb aa".data, []⟩).state.disabledExtensions := by
  refine ⟨by decide, ?_, ?_, ?_⟩
  · exact (disabledExtensions_sorted_immutable 5 7 ⟨"bb aa".data, []⟩ (by decide)).1
  · exact (disabledExtensions_sorted_immutable 5 7 ⟨"bb aa".data, []⟩
      (by decide)).2.1 _ ["cc".data]
  · exact (disabledExtensions_sorted_immutable 5 7 ⟨"bb aa".data, []⟩
      (by decide)).2.2 _ 0 [1]

/-- C7 counterexample: the claim asserts that *any* non-empty priority array
appends a queue, but the priorities are copied into a 32-slot static storage
guarded by the `CORRADE_INTERNAL_ASSERT` at `Device.cpp:203`: on a fresh
`DeviceCreateInfo`, `addQueues(0, <33 priorities>)` fires that internal
assertion (process abort), so nothing is appended although the array is
non-empty. -/
theorem addQueues_33_priorities_aborts :
    (List.replicate 33 (0 : Priority)).isEmpty = false ∧
    (DeviceCreateInfo.mk ⟨0, [], 0, []⟩ ⟨[], [], [], [], 5⟩).addQueues 0
        (List.replicate 33 (0 : Priority))
      = .internalAbort := by
  constructor
  · decide
  · decide

/-- C7 (amended: the priorities must also fit into the remaining part of the
32-slot static priority storage, otherwise an internal assertion terminates
the process): `addQueues` with an empty priority array fails the
precondition assertion with the documented message and returns the object
unchanged; with a non-empty array of `n` priorities that fits it appends
exactly one queue create info with the given family index and
`queueCount = n`, and `queueCreateInfoCount` grows by one. -/
theorem addQueues_correct (d : DeviceCreateInfo) (family : Nat)
    (ps : List Priority)
    (hcount : d.info.queueCreateInfoCount = d.state.queues.length) :
    (ps = [] → d.addQueues family ps = .assertedOut addQueuesMessage d) ∧
    (ps ≠ [] → d.state.queuePriorities.length + ps.length ≤ 32 →
      ∃ d', d.addQueues family ps = .ok d' ∧
        d'.state.queues = d.state.queues
            ++ [{ queueFamilyIndex := family, queueCount := ps.length,
                  pQueuePriorities := ps }] ∧
        d'.info.queueCreateInfoCount = d.info.queueCreateInfoCount + 1 ∧
        d'.info.pQueueCreateInfos = d'.state.queues) := by
  constructor
  · intro hps
    subst hps
    rfl
  · intro hps hfit
    have hemp : ps.isEmpty = false := by
      cases ps with
      | nil => exact absurd rfl hps
      | cons a l => rfl
    unfold DeviceCreateInfo.addQueues
    rw [hemp]
    simp only [Bool.false_eq_true, if_false, hfit, if_pos]
    refine ⟨_, rfl, ?_, ?_, rfl⟩
    · rfl
    · simp [DeviceCreateInfo.addQueuesInfo, hcount]

/-- Witness for C7's amended theorem at a concrete input: a fresh
`DeviceCreateInfo` with one queue already recorded; the empty call asserts
gracefully and a two-priority call appends one queue info. -/
theorem addQueues_correct_witness :
    (DeviceCreateInfo.mk ⟨0, [], 1, [⟨0, 1, [1]⟩]⟩
        ⟨[], [], [⟨0, 1, [1]⟩], [1], 5⟩).info.queueCreateInfoCount
      = (DeviceCreateInfo.mk ⟨0, [], 1, [⟨0, 1, [1]⟩]⟩
          ⟨[], [], [⟨0, 1, [1]⟩], [1], 5⟩).state.queues.length ∧
    (DeviceCreateInfo.mk ⟨0, [], 1, [⟨0, 1, [1]⟩]⟩
        ⟨[], [], [⟨0, 1, [1]⟩], [1], 5⟩).addQueues 2 []
      = .assertedOut addQueuesMessage
          (DeviceCreateInfo.mk ⟨0, [], 1, [⟨0, 1, [1]⟩]⟩
            ⟨[], [], [⟨0, 1, [1]⟩], [1], 5⟩) ∧
    (∃ d', (DeviceCreateInfo.mk ⟨0, [], 1, [⟨0, 1, [1]⟩]⟩
        ⟨[], [], [⟨0, 1, [1]⟩], [1], 5⟩).addQueues 2 [7, 9] = .ok d' ∧
      d'.state.queues = [⟨0, 1, [1]⟩]
          ++ [{ queueFamilyIndex := 2, queueCount := [7, 9].length,
                pQueuePriorities := [7, 9] }] ∧
      d'.info.queueCreateInfoCount = 1 + 1 ∧
      d'.info.pQueueCreateInfos = d'.state.queues) := by
  refine ⟨by decide, ?_, ?_⟩
  · exact (addQueues_correct (DeviceCreateInfo.mk ⟨0, [], 1, [⟨0, 1, [1]⟩]⟩
      ⟨[], [], [⟨0, 1, [1]⟩], [1], 5⟩) 2 [] (by decide)).1 rfl
  · exact (addQueues_correct (DeviceCreateInfo.mk ⟨0, [], 1, [⟨0, 1, [1]⟩]⟩
      ⟨[], [], [⟨0, 1, [1]⟩], [1], 5⟩) 2 [7, 9] (by decide)).2
      (by decide) (by decide)

theorem lowerBoundExtIdx_eq_length {tbl : List Extension} {x : Str}
    (h : ∀ e ∈ tbl, e.name < x) : lowerBoundExtIdx tbl x = tbl.length := by
  induction tbl with
  | nil => rfl
  | cons e es ih =>
    have he : e.name < x := h e (List.mem_cons_self e es)
    simp [lowerBoundExtIdx, he,
      ih fun e' he' => h e' (List.mem_cons_of_mem _ he')]

theorem searchTable_oob {st : ExtensionStatus} {tbl : List Extension} {x : Str}
    (h : ∀ e ∈ tbl, e.name < x) : searchTable st tbl x = none := by
  unfold searchTable
  rw [lowerBoundExtIdx_eq_length h]
  simp

theorem initializeExtensionsName_oob {tables : List (List Extension)}
    {st : ExtensionStatus} {x : Str}
    (h : ∃ tbl ∈ tables, ∀ e ∈ tbl, e.name < x) :
    initializeExtensionsName tables st x = none := by
  induction tables generalizing st with
  | nil => simp at h
  | cons t ts ih =>
    obtain ⟨tbl, htbl, hlt⟩ := h
    unfold initializeExtensionsName
    rcases List.mem_cons.mp htbl with rfl | htbl
    · simp [searchTable_oob hlt]
    · rw [List.foldlM_cons]
      cases hst : searchTable st t x with
      | none => rfl
      | some st' =>
        simpa [hst] using @ih st' ⟨tbl, htbl, hlt⟩

theorem foldl_initializeExtensions_oob {tables : List (List Extension)}
    {names : List Str} {st : ExtensionStatus} {x : Str} (hx : x ∈ names)
    (h : ∃ tbl ∈ tables, ∀ e ∈ tbl, e.name < x) :
    names.foldlM (initializeExtensionsName tables) st = none := by
  induction names generalizing st with
  | nil => simp at hx
  | cons y ys ih =>
    rw [List.foldlM_cons]
    rcases List.mem_cons.mp hx with rfl | hx
    · simp [initializeExtensionsName_oob h]
    · cases hy : initializeExtensionsName tables st y with
      | none => rfl
      | some st' => simpa [hy] using @ih st' hx

/-- C8: the claim states `Device::initializeExtensions` never reads outside
the known-extension tables, but the code dereferences the `std::lower_bound`
result at `Device.cpp:304` without comparing it against the table's end
iterator: whenever some searched table's entries all sort before an enabled
name (so `lower_bound` returns the end iterator — in particular for any
unknown name sorting after the whole table, or for an empty table), the
comparison `found->string() != extension` reads past the end of the table.
The theorem evaluates the model at such inputs: the whole run aborts with
the out-of-bounds marker `none` instead of completing with a status. -/
theorem initializeExtensions_readsOutOfBounds (tables : List (List Extension))
    (names : List Str) (x : Str) (hx : x ∈ names)
    (h : ∃ tbl ∈ tables, ∀ e ∈ tbl, e.name < x) :
    initializeExtensionsAll tables names = none :=
  foldl_initializeExtensions_oob hx h

/-- Witness for C8 at a concrete input: a single one-entry table and the
enabled name `"zz"`, which sorts after the only entry. -/
theorem initializeExtensions_readsOutOfBounds_witness :
    ("zz".data : Str) ∈ [("zz".data : Str)] ∧
    (∃ tbl ∈ [[Extension.mk "aa".data 0]], ∀ e ∈ tbl, e.name < ("zz".data : Str)) ∧
    initializeExtensionsAll [[Extension.mk "aa".data 0]] ["zz".data] = none := by
  refine ⟨by decide, ⟨[Extension.mk "aa".data 0], by decide⟩, ?_⟩
  exact initializeExtensions_readsOutOfBounds [[Extension.mk "aa".data 0]]
    ["zz".data] "zz".data (by decide) ⟨[Extension.mk "aa".data 0], by decide⟩

/-- C2: the claim states that a `Device` built by `wrap()` (or the
constructor) with any list of enabled extension name strings answers
`isExtensionEnabled(e)` as "e is a known device extension whose name occurs
in the list" — `Device.h:229` documents exactly that for `wrap`.  The code
does not deliver it: `initializeExtensions` runs during construction, and
for any list containing a name that sorts after all entries of one of the
known-extension tables (e.g. an unknown name beyond the table's last entry)
it dereferences the table's end iterator (`Device.cpp:304`), so the
extension status — and every later `isExtensionEnabled` answer — is
undefined rather than the documented membership test.  The theorem evaluates
the wrap path at such inputs: construction ends in the out-of-bounds marker
`none`, producing no device with the claimed property. -/
theorem wrap_unknownName_outOfBounds (tables : List (List Extension))
    (loaded : FlextVkDevice) (handle version flags : Nat) (names : List Str)
    (x : Str) (hx : x ∈ names)
    (h : ∃ tbl ∈ tables, ∀ e ∈ tbl, e.name < x) :
    Device.wrap tables loaded handle version names flags = none := by
  unfold Device.wrap initializeExtensionsAll
  rw [foldl_initializeExtensions_oob hx h]
  rfl

/-- Witness for C2 at a concrete input: wrapping a device with the single
enabled name `"zzz"` against a one-entry known-extensions table. -/
theorem wrap_unknownName_outOfBounds_witness :
    ("zzz".data : Str) ∈ [("zzz".data : Str)] ∧
    (∃ tbl ∈ [[Extension.mk "bb".data 1]], ∀ e ∈ tbl, e.name < ("zzz".data : Str)) ∧
    Device.wrap [[Extension.mk "bb".data 1]] ⟨0⟩ 7 4194304 ["zzz".data] 0 = none := by
  refine ⟨by decide, ⟨[Extension.mk "bb".data 1], by decide⟩, ?_⟩
  exact wrap_unknownName_outOfBounds [[Extension.mk "bb".data 1]] ⟨0⟩ 7 4194304 0
    ["zzz".data] "zzz".data (by decide) ⟨[Extension.mk "bb".data 1], by decide⟩

/-- C4 counterexample: the claim says `queueFamilyProperties()` fetches the
family array only on its first call, but the cache-full test at
`DeviceProperties.cpp:103` is "the cached array is non-empty", which is
indistinguishable from the not-yet-fetched state when the driver reports
zero queue families: on such a device the *second* call performs two more
native queries (count and data) instead of none. -/
theorem queueFamilyProperties_refetch_counterexample :
    (DeviceProperties.queueFamilyPropertiesCall
        (PhysicalDevice.mk ⟨1, 1, .other, []⟩ [])
        (DeviceProperties.queueFamilyPropertiesCall
          (PhysicalDevice.mk ⟨1, 1, .other, []⟩ [])
          DevicePropertiesState.initial).2.1).2.2 = 2 := by
  decide

/-- C4 (amended: for the queue-family cache the device must report at least
one queue family — with zero families the empty cached array doubles as the
not-yet-fetched sentinel and every call re-queries): the first
`properties()` call on a fresh state performs one native query and caches
the structure; after any `properties()` call, further `properties()`,
`apiVersion()`, `driverVersion()`, `type()` and `name()` calls perform no
native query, leave the state unchanged and read the same cached structure;
the first `queueFamilyProperties()` call on a fresh state performs its two
native queries, and (for a device with at least one family) after any
`queueFamilyProperties()` call further ones perform no query and return the
same array — so repeated calls return identical values. -/
theorem deviceProperties_lazyCaching (dev : PhysicalDevice)
    (s : DevicePropertiesState) :
    (DeviceProperties.propertiesCall dev DevicePropertiesState.initial).2.2 = 1 ∧
    (DeviceProperties.propertiesCall dev
        (DeviceProperties.propertiesCall dev s).2.1)
      = ((DeviceProperties.propertiesCall dev s).1,
         (DeviceProperties.propertiesCall dev s).2.1, 0) ∧
    (DeviceProperties.apiVersionCall dev
        (DeviceProperties.propertiesCall dev s).2.1)
      = ((DeviceProperties.propertiesCall dev s).1.properties.apiVersion,
         (DeviceProperties.propertiesCall dev s).2.1, 0) ∧
    (DeviceProperties.driverVersionCall dev
        (DeviceProperties.propertiesCall dev s).2.1)
      = ((DeviceProperties.propertiesCall dev s).1.properties.driverVersion,
         (DeviceProperties.propertiesCall dev s).2.1, 0) ∧
    (DeviceProperties.typeCall dev
        (DeviceProperties.propertiesCall dev s).2.1)
      = ((DeviceProperties.propertiesCall dev s).1.properties.deviceType,
         (DeviceProperties.propertiesCall dev s).2.1, 0) ∧
    (DeviceProperties.nameCall dev
        (DeviceProperties.propertiesCall dev s).2.1)
      = ((DeviceProperties.propertiesCall dev s).1.properties.deviceName,
         (DeviceProperties.propertiesCall dev s).2.1, 0) ∧
    (DeviceProperties.queueFamilyPropertiesCall dev
        DevicePropertiesState.initial).2.2 = 2 ∧
    (dev.queueFamilies ≠ [] →
      DeviceProperties.queueFamilyPropertiesCall dev
          (DeviceProperties.queueFamilyPropertiesCall dev s).2.1
        = ((DeviceProperties.queueFamilyPropertiesCall dev s).1,
           (DeviceProperties.queueFamilyPropertiesCall dev s).2.1, 0)) := by
  have hcached :
      (DeviceProperties.propertiesCall dev s).2.1.properties.sType ≠ 0 ∧
      DeviceProperties.propertiesCall dev
          (DeviceProperties.propertiesCall dev s).2.1
        = ((DeviceProperties.propertiesCall dev s).1,
           (DeviceProperties.propertiesCall dev s).2.1, 0) := by
    by_cases h0 : s.properties.sType = 0
    · constructor
      · simp [DeviceProperties.propertiesCall, h0, vkStructureTypeProperties2]
      · simp [DeviceProperties.propertiesCall, h0, vkStructureTypeProperties2]
    · constructor
      · simp [DeviceProperties.propertiesCall, h0]
      · simp [DeviceProperties.propertiesCall, h0]
  refine ⟨by simp [DeviceProperties.propertiesCall, DevicePropertiesState.initial],
    hcached.2, ?_, ?_, ?_, ?_,
    by simp [DeviceProperties.queueFamilyPropertiesCall, DevicePropertiesState.initial], ?_⟩
  · unfold DeviceProperties.apiVersionCall
    rw [hcached.2]
  · unfold DeviceProperties.driverVersionCall
    rw [hcached.2]
  · unfold DeviceProperties.typeCall
    rw [hcached.2]
  · unfold DeviceProperties.nameCall
    rw [hcached.2]
  · intro hq
    by_cases hemp : s.queueFamilyProperties.isEmpty
    · have hq' : dev.queueFamilies.isEmpty = false := by
        cases h : dev.queueFamilies with
        | nil => exact absurd h hq
        | cons a l => rfl
      simp [DeviceProperties.queueFamilyPropertiesCall, hemp, hq']
    · simp only [Bool.not_eq_true] at hemp
      simp [DeviceProperties.queueFamilyPropertiesCall, hemp]

/-- Witness for C4's amended theorem at a concrete input: the sample
integrated GPU (one queue family), starting from the fresh state. -/
theorem deviceProperties_lazyCaching_witness :
    sampleIntegrated.queueFamilies ≠ [] ∧
    (DeviceProperties.propertiesCall sampleIntegrated
        (DeviceProperties.propertiesCall sampleIntegrated
          DevicePropertiesState.initial).2.1)
      = ((DeviceProperties.propertiesCall sampleIntegrated
            DevicePropertiesState.initial).1,
         (DeviceProperties.propertiesCall sampleIntegrated
            DevicePropertiesState.initial).2.1, 0) ∧
    (DeviceProperties.queueFamilyPropertiesCall sampleIntegrated
        (DeviceProperties.queueFamilyPropertiesCall sampleIntegrated
          DevicePropertiesState.initial).2.1)
      = ((DeviceProperties.queueFamilyPropertiesCall sampleIntegrated
            DevicePropertiesState.initial).1,
         (DeviceProperties.queueFamilyPropertiesCall sampleIntegrated
            DevicePropertiesState.initial).2.1, 0) := by
  refine ⟨by decide, ?_, ?_⟩
  · exact (deviceProperties_lazyCaching sampleIntegrated
      DevicePropertiesState.initial).2.1
  · exact (deviceProperties_lazyCaching sampleIntegrated
      DevicePropertiesState.initial).2.2.2.2.2.2.2 (by decide)

/-- C5: `tryPickDevice` with no `--magnum-device` value returns the first
enumerated device (empty exactly when there are none); with a value whose
first character is a decimal digit it returns the device at the parsed
numeric index (empty exactly when the index is out of bounds); with one of
`integrated`, `discrete`, `virtual`, `cpu` it returns the first enumerated
device of the corresponding type (empty exactly when no device has it); and
with any other value it returns empty. -/
theorem tryPickDevice_correct (deviceArg : Str) (devices : List PhysicalDevice) :
    (deviceArg = [] →
      tryPickDevice deviceArg devices = devices.head? ∧
      (tryPickDevice deviceArg devices = none ↔ devices = [])) ∧
    (firstIsDecimalDigit deviceArg = true →
      tryPickDevice deviceArg devices = devices[parseUnsignedValue deviceArg]? ∧
      (tryPickDevice deviceArg devices = none ↔
        devices.length ≤ parseUnsignedValue deviceArg)) ∧
    (∀ t, parseDeviceTypeArg deviceArg = some t →
      tryPickDevice deviceArg devices
          = devices.find? (fun d => d.properties.deviceType == t) ∧
      (tryPickDevice deviceArg devices = none ↔
        ∀ d ∈ devices, ¬d.properties.deviceType = t)) ∧
    (deviceArg ≠ [] → firstIsDecimalDigit deviceArg = false →
      parseDeviceTypeArg deviceArg = none →
      tryPickDevice deviceArg devices = none) := by
  refine ⟨?_, ?_, ?_, ?_⟩
  · rintro rfl
    constructor
    · cases devices <;> simp [tryPickDevice]
    · cases devices <;> simp [tryPickDevice]
  · intro hdig
    have hne : deviceArg.isEmpty = false := by
      cases deviceArg with
      | nil => exact absurd hdig (by decide)
      | cons c cs => rfl
    constructor
    · rw [tryPickDevice, hne]
      simp only [Bool.false_eq_true, if_false, hdig, if_true]
      split
      · next hlen => exact (List.getElem?_eq_none hlen).symm
      · rfl
    · rw [tryPickDevice, hne]
      simp only [Bool.false_eq_true, if_false, hdig, if_true]
      split
      · next hlen => simp [hlen]
      · simp [List.getElem?_eq_none_iff]
  · intro t ht
    have hcase :
        tryPickDevice deviceArg devices
          = devices.find? (fun d => d.properties.deviceType == t) := by
      unfold parseDeviceTypeArg at ht
      split_ifs at ht with h1 h2 h3 h4 <;>
        (cases ht
         first
         | (subst h1; exact rfl)
         | (subst h2; exact rfl)
         | (subst h3; exact rfl)
         | (subst h4; exact rfl))
    refine ⟨hcase, ?_⟩
    rw [hcase, List.find?_eq_none]
    constructor
    · intro hall d hd
      have := hall d hd
      simpa using this
    · intro hall d hd
      simpa using hall d hd
  · intro hne hdig ht
    have hne' : deviceArg.isEmpty = false := by
      cases deviceArg with
      | nil => exact absurd rfl hne
      | cons c cs => rfl
    rw [tryPickDevice, hne', hdig]
    simp [ht]

/-- Witness for C5 at concrete inputs: two sample devices, one case of each
branch of the theorem. -/
theorem tryPickDevice_correct_witness :
    tryPickDevice [] [sampleIntegrated, sampleCpu]
        = [sampleIntegrated, sampleCpu].head? ∧
    tryPickDevice "1".data [sampleIntegrated, sampleCpu]
        = [sampleIntegrated, sampleCpu][parseUnsignedValue "1".data]? ∧
    tryPickDevice "cpu".data [sampleIntegrated, sampleCpu]
        = [sampleIntegrated, sampleCpu].find?
            (fun d => d.properties.deviceType == DeviceType.cpu) ∧
    tryPickDevice "FAST".data [sampleIntegrated, sampleCpu] = none := by
  refine ⟨?_, ?_, ?_, ?_⟩
  · exact ((tryPickDevice_correct [] [sampleIntegrated, sampleCpu]).1 rfl).1
  · exact ((tryPickDevice_correct "1".data [sampleIntegrated, sampleCpu]).2.1
      (by decide)).1
  · exact ((tryPickDevice_correct "cpu".data [sampleIntegrated, sampleCpu]).2.2.1
      DeviceType.cpu (by decide)).1
  · exact (tryPickDevice_correct "FAST".data [sampleIntegrated, sampleCpu]).2.2.2
      (by decide) (by decide) (by decide)

theorem tryPickQueueFamilyLoop_le {req : Nat} {fs : List VkQueueFamilyProperties}
    {k i : Nat} (h : tryPickQueueFamilyLoop req fs k = some i) : k ≤ i := by
  induction fs generalizing k with
  | nil => simp [tryPickQueueFamilyLoop] at h
  | cons p ps ih =>
    unfold tryPickQueueFamilyLoop at h
    split at h
    · cases h
      exact le_refl _
    · exact le_trans (Nat.le_succ k) (ih h)

theorem tryPickQueueFamilyLoop_none_iff {req : Nat}
    {fs : List VkQueueFamilyProperties} {k : Nat} :
    tryPickQueueFamilyLoop req fs k = none ↔
      ∀ p ∈ fs, queueFlagsContain p.queueFlags req = false := by
  induction fs generalizing k with
  | nil => simp [tryPickQueueFamilyLoop]
  | cons p ps ih =>
    unfold tryPickQueueFamilyLoop
    by_cases hc : queueFlagsContain p.queueFlags req = true
    · rw [if_pos hc]
      constructor
      · intro h
        cases h
      · intro h
        have := h p (List.mem_cons_self p ps)
        rw [hc] at this
        cases this
    · rw [if_neg hc]
      have hc' : queueFlagsContain p.queueFlags req = false := by
        simpa using hc
      rw [ih]
      constructor
      · intro h q hq
        rcases List.mem_cons.mp hq with rfl | hq
        · exact hc'
        · exact h q hq
      · intro h q hq
        exact h q (List.mem_cons_of_mem _ hq)

theorem tryPickQueueFamilyLoop_some_iff {req : Nat}
    {fs : List VkQueueFamilyProperties} {k i : Nat} :
    tryPickQueueFamilyLoop req fs k = some (k + i) ↔
      (∃ p, fs[i]? = some p ∧ queueFlagsContain p.queueFlags req = true) ∧
      (∀ j, j < i → ∀ q, fs[j]? = some q →
        queueFlagsContain q.queueFlags req = false) := by
  induction fs generalizing k i with
  | nil => simp [tryPickQueueFamilyLoop]
  | cons p ps ih =>
    unfold tryPickQueueFamilyLoop
    by_cases hc : queueFlagsContain p.queueFlags req = true
    · rw [if_pos hc]
      constructor
      · intro h
        have hi : i = 0 := by
          have := Option.some_inj.mp h
          omega
        subst hi
        refine ⟨⟨p, by simp, hc⟩, fun j hj q hq => absurd hj (by omega)⟩
      · rintro ⟨⟨p', hp', hcp'⟩, hmin⟩
        by_cases hi : i = 0
        · subst hi
          simp
        · have h0 : (p :: ps)[0]? = some p := by simp
          have := hmin 0 (Nat.pos_of_ne_zero hi) p h0
          rw [hc] at this
          cases this
    · rw [if_neg hc]
      have hc' : queueFlagsContain p.queueFlags req = false := by
        simpa using hc
      constructor
      · intro h
        have hk1 : k + 1 ≤ k + i := tryPickQueueFamilyLoop_le h
        obtain ⟨i', rfl⟩ : ∃ i', i = i' + 1 := ⟨i - 1, by omega⟩
        have h' : tryPickQueueFamilyLoop req ps (k + 1) = some ((k + 1) + i') := by
          rw [show (k + 1) + i' = k + (i' + 1) by omega]
          exact h
        obtain ⟨⟨q, hq, hcq⟩, hmin⟩ := ih.mp h'
        refine ⟨⟨q, by simpa using hq, hcq⟩, ?_⟩
        intro j hj r hr
        cases j with
        | zero =>
          simp at hr
          rw [← hr]
          exact hc'
        | succ j' =>
          exact hmin j' (by omega) r (by simpa using hr)
      · rintro ⟨⟨q, hq, hcq⟩, hmin⟩
        cases i with
        | zero =>
          simp at hq
          rw [← hq] at hcq
          rw [hc'] at hcq
          cases hcq
        | succ i' =>
          have harg : (∃ p', ps[i']? = some p' ∧
              queueFlagsContain p'.queueFlags req = true) ∧
              (∀ j, j < i' → ∀ r, ps[j]? = some r →
                queueFlagsContain r.queueFlags req = false) := by
            refine ⟨⟨q, by simpa using hq, hcq⟩, ?_⟩
            intro j hj r hr
            exact hmin (j + 1) (by omega) r (by simpa using hr)
          have h' := (@ih (k + 1) i').mpr harg
          rw [show k + (i' + 1) = (k + 1) + i' by omega]
          exact h'

/-- C6: `tryPickQueueFamily(flags)` returns the smallest queue-family index
whose flag set contains all requested flags and returns an empty `Optional`
exactly when no family satisfies them; `pickQueueFamily(flags)` returns the
same index whenever `tryPickQueueFamily` succeeds and exits the process
(`Except.error`) instead of returning when it does not. -/
theorem pickQueueFamily_correct (families : List VkQueueFamilyProperties)
    (requested : Nat) :
    (∀ i, DeviceProperties.tryPickQueueFamily families requested = some i ↔
      (∃ p, families[i]? = some p ∧
          queueFlagsContain p.queueFlags requested = true) ∧
      (∀ j, j < i → ∀ q, families[j]? = some q →
        queueFlagsContain q.queueFlags requested = false)) ∧
    (DeviceProperties.tryPickQueueFamily families requested = none ↔
      ∀ p ∈ families, queueFlagsContain p.queueFlags requested = false) ∧
    (∀ i, DeviceProperties.pickQueueFamily families requested = .ok i ↔
      DeviceProperties.tryPickQueueFamily families requested = some i) ∧
    (DeviceProperties.pickQueueFamily families requested = .error () ↔
      DeviceProperties.tryPickQueueFamily families requested = none) := by
  refine ⟨?_, tryPickQueueFamilyLoop_none_iff, ?_, ?_⟩
  · intro i
    have h := @tryPickQueueFamilyLoop_some_iff requested families 0 i
    rw [Nat.zero_add] at h
    exact h
  · intro i
    unfold DeviceProperties.pickQueueFamily
    cases h : DeviceProperties.tryPickQueueFamily families requested <;> simp [h]
  · unfold DeviceProperties.pickQueueFamily
    cases h : DeviceProperties.tryPickQueueFamily families requested <;> simp [h]

/-- Witness for C6 at a concrete input: two families with flag sets `{0}`
(graphics only) and `{0,1}`; requesting flag bit 1 picks index 1, requesting
flag bit 2 fails and makes `pickQueueFamily` exit. -/
theorem pickQueueFamily_correct_witness :
    (DeviceProperties.tryPickQueueFamily
        [⟨1, 1⟩, ⟨3, 1⟩] 2 = some 1 ↔
      (∃ p, [(⟨1, 1⟩ : VkQueueFamilyProperties), ⟨3, 1⟩][(1 : Nat)]? = some p ∧
          queueFlagsContain p.queueFlags 2 = true) ∧
      (∀ j, j < 1 → ∀ q,
          [(⟨1, 1⟩ : VkQueueFamilyProperties), ⟨3, 1⟩][j]? = some q →
        queueFlagsContain q.queueFlags 2 = false)) ∧
    (DeviceProperties.pickQueueFamily [⟨1, 1⟩, ⟨3, 1⟩] 2 = .ok 1 ↔
      DeviceProperties.tryPickQueueFamily [⟨1, 1⟩, ⟨3, 1⟩] 2 = some 1) ∧
    (DeviceProperties.pickQueueFamily [⟨1, 1⟩, ⟨3, 1⟩] 4 = .error () ↔
      DeviceProperties.tryPickQueueFamily [⟨1, 1⟩, ⟨3, 1⟩] 4 = none) :=
  ⟨(pickQueueFamily_correct [⟨1, 1⟩, ⟨3, 1⟩] 2).1 1,
   (pickQueueFamily_correct [⟨1, 1⟩, ⟨3, 1⟩] 2).2.2.1 1,
   (pickQueueFamily_correct [⟨1, 1⟩, ⟨3, 1⟩] 4).2.2.2⟩

theorem addQueues_ok_fields {d : DeviceCreateInfo} {family : Nat}
    {ps : List Priority} {d' : DeviceCreateInfo}
    (h : d.addQueues family ps = .ok d') :
    d'.state.version = d.state.version ∧
    d'.info.queueCreateInfoCount = d.state.queues.length + 1 := by
  unfold DeviceCreateInfo.addQueues at h
  split at h
  · cases h
  · split at h
    · cases h
      refine ⟨rfl, ?_⟩
      simp [DeviceCreateInfo.addQueuesInfo]
    · cases h

theorem construct_version (iv av : Nat) (args : DeviceArguments) :
    (DeviceCreateInfo.construct iv av args).state.version = min iv av := by
  unfold DeviceCreateInfo.construct
  rw [addEnabledExtensions_version]

/-- C9: for a `DeviceCreateInfo` constructed from a `DeviceProperties`, the
recorded version is `min(instance version, device apiVersion)`
(`Device.cpp:79`), it survives `addQueues`, and — being a real version, not
the `Version::None` sentinel — it is exactly what a `Device` constructed
from that info reports via `version()` (`Device.cpp:253`); in particular the
device version never exceeds the instance version, so forcing a lower
instance version caps it. -/
theorem deviceVersion_minOfInstanceAndApi (iv av : Nat) (args : DeviceArguments)
    (family : Nat) (ps : List Priority) (d' : DeviceCreateInfo)
    (tables : List (List Extension)) (loaded : FlextVkDevice) (handle : Nat)
    (st : ExtensionStatus)
    (hmin : min iv av ≠ noneVersion)
    (hq : (DeviceCreateInfo.construct iv av args).addQueues family ps = .ok d')
    (hext : initializeExtensionsAll tables
        (d'.info.ppEnabledExtensionNames.take d'.info.enabledExtensionCount)
      = some st) :
    Device.create tables loaded handle av d'
        = some { handle := handle, flags := destroyOnDestruction,
                 version := min iv av, extensionStatus := st,
                 functionPointers := loaded } ∧
    min iv av ≤ iv := by
  obtain ⟨hver, hcount⟩ := addQueues_ok_fields hq
  have hver' : d'.state.version = min iv av := by
    rw [hver, construct_version]
  have hc0 : ¬d'.info.queueCreateInfoCount = 0 := by
    rw [hcount]
    omega
  have hcond : d'.state.version ≠ noneVersion := by
    rw [hver']
    exact hmin
  refine ⟨?_, Nat.min_le_left iv av⟩
  unfold Device.create
  rw [if_neg hc0, hext]
  simp [hcond, hver']
  exact fun h => absurd h hmin

/-- Witness for C9 at a concrete input: instance version 5, device
apiVersion 7, empty command-line options, one queue with priority 1, empty
known-extensions tables; the created device reports version `min 5 7 = 5`. -/
theorem deviceVersion_minOfInstanceAndApi_witness :
    min 5 7 ≠ noneVersion ∧
    (DeviceCreateInfo.construct 5 7 ⟨[], []⟩).addQueues 0 [1]
        = .ok (DeviceCreateInfo.mk ⟨0, [], 1, [⟨0, 1, [1]⟩]⟩
            ⟨[], [], [⟨0, 1, [1]⟩], [1], 5⟩) ∧
    initializeExtensionsAll []
        ((DeviceCreateInfo.mk ⟨0, [], 1, [⟨0, 1, [1]⟩]⟩
            ⟨[], [], [⟨0, 1, [1]⟩], [1],
              5⟩).info.ppEnabledExtensionNames.take
          (DeviceCreateInfo.mk ⟨0, [], 1, [⟨0, 1, [1]⟩]⟩
            ⟨[], [], [⟨0, 1, [1]⟩], [1], 5⟩).info.enabledExtensionCount)
      = some ExtensionStatus.allDisabled ∧
    Device.create [] ⟨3⟩ 9 7 (DeviceCreateInfo.mk ⟨0, [], 1, [⟨0, 1, [1]⟩]⟩
        ⟨[], [], [⟨0, 1, [1]⟩], [1], 5⟩)
      = some { handle := 9, flags := destroyOnDestruction, version := min 5 7,
               extensionStatus := ExtensionStatus.allDisabled,
               functionPointers := ⟨3⟩ } := by
  refine ⟨by decide, by decide, rfl, ?_⟩
  exact (deviceVersion_minOfInstanceAndApi 5 7 ⟨[], []⟩ 0 [1]
    (DeviceCreateInfo.mk ⟨0, [], 1, [⟨0, 1, [1]⟩]⟩
      ⟨[], [], [⟨0, 1, [1]⟩], [1], 5⟩)
    [] ⟨3⟩ 9 ExtensionStatus.allDisabled (by decide) (by decide) rfl).1

/-- C10: `Device::populateGlobalFunctionPointers()` copies the device's
stored function-pointer table into the single global table and changes
nothing else: the device itself is unchanged, the new global table is
exactly the device's table, and calling it twice in a row has the same
effect on the global table as calling it once. -/
theorem populateGlobalFunctionPointers_correct (d : Device)
    (g : GlobalFunctionPointers) :
    (d.populateGlobalFunctionPointers g).1.flextVkDevice = d.functionPointers ∧
    (d.populateGlobalFunctionPointers g).2 = d ∧
    d.populateGlobalFunctionPointers (d.populateGlobalFunctionPointers g).1
      = d.populateGlobalFunctionPointers g :=
  ⟨rfl, rfl, rfl⟩

end Vk
end Magnum
